import Mathlib

set_option maxRecDepth 4000
set_option maxHeartbeats 1000000

/-!
Shallow embedding of the Oppla task-sync and context-search code:
`crates/assistant_tools/src/file_search_tool.rs` and
`crates/agent_ui/src/agent_configuration.rs`.

Modelling conventions: Rust `Option<String>` is `Option String`,
`SharedString` is `String`, `SystemTime` is a `Nat` timestamp, the
`RwLock<Option<TaskSyncData>>` store is its unpoisoned state
`Option TaskSyncData`, and the one-second polling loop of `sync_task`
is a fuel-indexed recursion over a stream of receive events (real time
is modelled as the iteration count).
-/

/-- `SearchFilter` from `file_search_tool.rs` lines 38-67.  Every field is
optional exactly as in the Rust struct. -/
structure SearchFilter where
  search_type : Option String
  content_type : Option String
  thread_id : Option String
  account_id : Option String
  product_id : Option String
  board_id : Option String
  task_id : Option String
  deriving Repr, DecidableEq

/-- The all-`None` filter that `perform_search` builds with
`unwrap_or_else` when the caller supplied no filter
(`file_search_tool.rs` lines 118-126). -/
def SearchFilter.emptyFilter : SearchFilter :=
  { search_type := none
    content_type := none
    thread_id := none
    account_id := none
    product_id := none
    board_id := none
    task_id := none }

/-- `FileSearchToolInput` from `file_search_tool.rs` lines 23-36. -/
structure FileSearchToolInput where
  query : Option String
  limit : Option Nat
  filter : Option SearchFilter
  deriving Repr, DecidableEq

/-- `TaskSyncData` from `agent_configuration.rs` lines 117-139.
`synced_at` is a `Nat` timestamp in place of `std::time::SystemTime`. -/
structure TaskSyncData where
  account_id : String
  account_name : String
  product_id : String
  product_name : String
  board_id : String
  big_bet : Option String
  big_bet_description : Option String
  task_id : Option String
  work_item : Option String
  work_item_description : Option String
  synced_at : Option Nat
  deriving Repr, DecidableEq

/-- The filter merge performed at the start of
`FileSearchTool::perform_search` (`file_search_tool.rs` lines 117-145):
when ambient context filters exist, start from the caller filter (or the
all-`None` filter), and copy each of `account_id`, `product_id`,
`board_id`, `task_id` from the context filter only when the caller field
is `None`; when no ambient context filters exist, pass the caller filter
through unchanged. -/
def perform_search_filter (input : FileSearchToolInput)
    (context_filters : Option SearchFilter) : Option SearchFilter :=
  match context_filters with
  | some context_filter =>
    let merged := input.filter.getD SearchFilter.emptyFilter
    let merged := if merged.account_id = none then
        { merged with account_id := context_filter.account_id } else merged
    let merged := if merged.product_id = none then
        { merged with product_id := context_filter.product_id } else merged
    let merged := if merged.board_id = none then
        { merged with board_id := context_filter.board_id } else merged
    let merged := if merged.task_id = none then
        { merged with task_id := context_filter.task_id } else merged
    some merged
  | none => input.filter

/-- The ambient context-filter extraction in `FileSearchTool::run`
(`file_search_tool.rs` lines 270-293): when sync data is present, build a
filter with `content_type = some "auto"`, the three core IDs always
included (even when empty strings), and `task_id` only when present. -/
def run_context_filters (sync_data : Option TaskSyncData) :
    Option SearchFilter :=
  sync_data.map fun sd =>
    { search_type := none
      content_type := some "auto"
      thread_id := none
      account_id := some sd.account_id
      product_id := some sd.product_id
      board_id := some sd.board_id
      task_id := sd.task_id }

/-- The pure core of `FileSearchTool::run` (`file_search_tool.rs`
lines 255-304): the input validation at lines 261-263, then the filter
produced for the search request.  Network transport is outside the
model; the value of interest is the effective filter. -/
def run_model (input : FileSearchToolInput)
    (sync_data : Option TaskSyncData) : Except String (Option SearchFilter) :=
  if input.query.isNone &&
      (Option.bind input.filter SearchFilter.thread_id).isNone then
    Except.error "Either 'query' or 'filter.thread_id' must be provided"
  else
    Except.ok (perform_search_filter input (run_context_filters sync_data))

/-- `IdeContext::get_sync_data` (`agent_configuration.rs` lines 62-64) on
the unpoisoned store state: a clone of the current value. -/
def get_sync_data (s : Option TaskSyncData) : Option TaskSyncData := s

/-- `IdeContext::set_sync_data` (`agent_configuration.rs` lines 66-70):
atomic replace of the stored value. -/
def set_sync_data (_ : Option TaskSyncData) (d : TaskSyncData) :
    Option TaskSyncData := some d

/-- `IdeContext::clear_sync_data` (`agent_configuration.rs` lines 72-76):
atomic reset of the store to empty. -/
def clear_sync_data (_ : Option TaskSyncData) : Option TaskSyncData := none

/-- `IdeContext::get_context_filter` (`agent_configuration.rs`
lines 79-109), with the JSON object modelled as its insertion-ordered
key/value list: `type = "tasks"`, then the three core IDs always
inserted verbatim, then `task_id` only when present. -/
def get_context_filter (s : Option TaskSyncData) :
    Option (List (String × String)) :=
  (get_sync_data s).map fun data =>
    [("type", "tasks"),
     ("account_id", data.account_id),
     ("product_id", data.product_id),
     ("board_id", data.board_id)] ++
    (match data.task_id with
     | some t => [("task_id", t)]
     | none => [])

/-- The fresh `TaskSyncData` that `sync_task` builds before reading the
query pairs (`agent_configuration.rs` lines 628-640): every string field
empty, every optional field `None`, and `synced_at` stamped with the
current time. -/
def default_sync_data (now : Nat) : TaskSyncData :=
  { account_id := ""
    account_name := ""
    product_id := ""
    product_name := ""
    board_id := ""
    big_bet := none
    big_bet_description := none
    task_id := none
    work_item := none
    work_item_description := none
    synced_at := some now }

/-- One arm of the `match key.as_ref()` over the (percent-decoded) query
pairs in `sync_task` (`agent_configuration.rs` lines 642-656).  The Rust
`match` on string literals is embedded as the equivalent sequential
equality chain; unrecognized keys leave the data unchanged. -/
def apply_query_pair (sd : TaskSyncData) (kv : String × String) :
    TaskSyncData :=
  if kv.1 = "account_id" then { sd with account_id := kv.2 }
  else if kv.1 = "account_name" then { sd with account_name := kv.2 }
  else if kv.1 = "product_id" then { sd with product_id := kv.2 }
  else if kv.1 = "product_name" then { sd with product_name := kv.2 }
  else if kv.1 = "board_id" then { sd with board_id := kv.2 }
  else if kv.1 = "board_name" then { sd with big_bet := some kv.2 }
  else if kv.1 = "board_description" then
    { sd with big_bet_description := some kv.2 }
  else if kv.1 = "task_id" then { sd with task_id := some kv.2 }
  else if kv.1 = "task_name" then { sd with work_item := some kv.2 }
  else if kv.1 = "task_description" then
    { sd with work_item_description := some kv.2 }
  else sd

/-- The query-pair loop of `sync_task` (`agent_configuration.rs`
lines 642-656): fold `apply_query_pair` over the decoded query pairs of
the callback URL, starting from `default_sync_data now`.  `pairs` is the
output of `url.query_pairs()`, so its values are already percent-decoded. -/
def parse_sync_data (now : Nat) (pairs : List (String × String)) :
    TaskSyncData :=
  pairs.foldl apply_query_pair (default_sync_data now)

/-- What one iteration of the `sync_task` listener loop observes from
`server.recv_timeout(1s).ok().flatten()` followed by `Url::parse` and
`req.respond` (`agent_configuration.rs` lines 620-677): either no request
arrived within the one-second poll (`recv` timeout or error), or a
request arrived whose path either fails `Url::parse` (`parsed = none`)
or yields decoded query pairs, together with whether the later
`req.respond` call would succeed. -/
inductive RecvEvent where
  | noRequest : RecvEvent
  | request : Option (List (String × String)) → Bool → RecvEvent
  deriving Repr, DecidableEq

/-- The possible results of the spawned listener future in `sync_task`
(`agent_configuration.rs` lines 620-680): `Ok(sync_data)` on success, or
one of the three `anyhow` errors (the `Url::parse` context error, the
`req.respond` context error, or the timeout `bail!`). -/
inductive SyncOutcome where
  | success : TaskSyncData → SyncOutcome
  | parseFailure : SyncOutcome
  | respondFailure : SyncOutcome
  | timeout : SyncOutcome
  deriving Repr, DecidableEq

/-- The listener loop of `sync_task` (`agent_configuration.rs`
lines 621-679) with `fuel` iterations left and `idx` iterations already
performed: on a received request, a `Url::parse` failure propagates via
`?` (aborting the loop), otherwise the sync data is built from the query
pairs and a `req.respond` failure likewise propagates via `?` before
`return Ok(sync_data)` is reached; when no request arrives the loop
continues, and exhausting the fuel hits the `bail!` timeout. -/
def sync_listen_aux (now : Nat) (events : Nat → RecvEvent) :
    Nat → Nat → SyncOutcome
  | 0, _ => SyncOutcome.timeout
  | fuel + 1, idx =>
    match events idx with
    | RecvEvent.noRequest => sync_listen_aux now events fuel (idx + 1)
    | RecvEvent.request none _ => SyncOutcome.parseFailure
    | RecvEvent.request (some pairs) respondOk =>
      if respondOk then SyncOutcome.success (parse_sync_data now pairs)
      else SyncOutcome.respondFailure

/-- The full listener run of `sync_task`: `for _ in 0..300`, i.e. 300
one-second polls starting at iteration 0. -/
def sync_task_listen (now : Nat) (events : Nat → RecvEvent) : SyncOutcome :=
  sync_listen_aux now events 300 0

/-- Number of polling iterations (`recv_timeout` calls) the listener loop
performs before returning, with `fuel` iterations left at index `idx`:
an iteration that receives a request is the last one, and the loop never
runs past its fuel. -/
def sync_count_aux (events : Nat → RecvEvent) : Nat → Nat → Nat
  | 0, _ => 0
  | fuel + 1, idx =>
    match events idx with
    | RecvEvent.noRequest => 1 + sync_count_aux events fuel (idx + 1)
    | RecvEvent.request _ _ => 1

/-- Number of polling iterations a full listener run performs. -/
def sync_listen_count (events : Nat → RecvEvent) : Nat :=
  sync_count_aux events 300 0

/-- The publication step after the listener future resolves
(`agent_configuration.rs` lines 682-691): only an `Ok` outcome reaches
`update_sync_data`; every error leaves the store untouched. -/
def sync_task_store_update (prev : Option TaskSyncData)
    (outcome : SyncOutcome) : Option TaskSyncData :=
  match outcome with
  | SyncOutcome.success d => set_sync_data prev d
  | _ => prev

/-- Last value bound to key `k` in an (ordered) query-pair list: later
occurrences win, matching a left fold that overwrites. -/
def lastValue (k : String) : List (String × String) → Option String
  | [] => none
  | kv :: rest => (lastValue k rest).or
      (if kv.1 = k then some kv.2 else none)

/-- Modelled from the spec: the web-side encoder that serializes a
`TaskSyncData` as callback query parameters under the recognized key
names (`account_id`, `account_name`, `product_id`, `product_name`,
`board_id`, `board_name`, `board_description`, `task_id`, `task_name`,
`task_description`), emitting optional fields only when present.  The
encoder lives in the `app.oppla.ai` web application, not in this
repository; it is reconstructed here from the spec's round-trip
sentence and key table. -/
def encode_sync_data (sd : TaskSyncData) : List (String × String) :=
  [("account_id", sd.account_id),
   ("account_name", sd.account_name),
   ("product_id", sd.product_id),
   ("product_name", sd.product_name),
   ("board_id", sd.board_id)] ++
  (match sd.big_bet with
   | some v => [("board_name", v)]
   | none => []) ++
  (match sd.big_bet_description with
   | some v => [("board_description", v)]
   | none => []) ++
  (match sd.task_id with
   | some v => [("task_id", v)]
   | none => []) ++
  (match sd.work_item with
   | some v => [("task_name", v)]
   | none => []) ++
  (match sd.work_item_description with
   | some v => [("task_description", v)]
   | none => [])


/-- Applying one query pair only changes `account_id` when the key is
`account_id`, and then to the pair's value. -/
theorem apply_account_id (sd : TaskSyncData) (kv : String × String) :
    (apply_query_pair sd kv).account_id =
      if kv.1 = "account_id" then kv.2 else sd.account_id := by
  rcases kv with ⟨k, v⟩
  simp only [apply_query_pair]
  by_cases h : k = "account_id"
  · simp [h]
  · simp only [if_neg h]
    split_ifs <;> rfl

/-- Applying one query pair only changes `account_name` when the key is
`account_name`, and then to the pair's value. -/
theorem apply_account_name (sd : TaskSyncData) (kv : String × String) :
    (apply_query_pair sd kv).account_name =
      if kv.1 = "account_name" then kv.2 else sd.account_name := by
  rcases kv with ⟨k, v⟩
  simp only [apply_query_pair]
  by_cases h : k = "account_name"
  · simp [h]
  · simp only [if_neg h]
    split_ifs <;> rfl

/-- Applying one query pair only changes `product_id` when the key is
`product_id`, and then to the pair's value. -/
theorem apply_product_id (sd : TaskSyncData) (kv : String × String) :
    (apply_query_pair sd kv).product_id =
      if kv.1 = "product_id" then kv.2 else sd.product_id := by
  rcases kv with ⟨k, v⟩
  simp only [apply_query_pair]
  by_cases h : k = "product_id"
  · simp [h]
  · simp only [if_neg h]
    split_ifs <;> rfl

/-- Applying one query pair only changes `product_name` when the key is
`product_name`, and then to the pair's value. -/
theorem apply_product_name (sd : TaskSyncData) (kv : String × String) :
    (apply_query_pair sd kv).product_name =
      if kv.1 = "product_name" then kv.2 else sd.product_name := by
  rcases kv with ⟨k, v⟩
  simp only [apply_query_pair]
  by_cases h : k = "product_name"
  · simp [h]
  · simp only [if_neg h]
    split_ifs <;> rfl

/-- Applying one query pair only changes `board_id` when the key is
`board_id`, and then to the pair's value. -/
theorem apply_board_id (sd : TaskSyncData) (kv : String × String) :
    (apply_query_pair sd kv).board_id =
      if kv.1 = "board_id" then kv.2 else sd.board_id := by
  rcases kv with ⟨k, v⟩
  simp only [apply_query_pair]
  by_cases h : k = "board_id"
  · simp [h]
  · simp only [if_neg h]
    split_ifs <;> rfl

/-- Applying one query pair only changes `big_bet` when the key is
`board_name`, and then to the pair's value. -/
theorem apply_big_bet (sd : TaskSyncData) (kv : String × String) :
    (apply_query_pair sd kv).big_bet =
      if kv.1 = "board_name" then some kv.2 else sd.big_bet := by
  rcases kv with ⟨k, v⟩
  simp only [apply_query_pair]
  by_cases h : k = "board_name"
  · simp [h]
  · simp only [if_neg h]
    split_ifs <;> rfl

/-- Applying one query pair only changes `big_bet_description` when the key is
`board_description`, and then to the pair's value. -/
theorem apply_big_bet_description (sd : TaskSyncData) (kv : String × String) :
    (apply_query_pair sd kv).big_bet_description =
      if kv.1 = "board_description" then some kv.2 else sd.big_bet_description := by
  rcases kv with ⟨k, v⟩
  simp only [apply_query_pair]
  by_cases h : k = "board_description"
  · simp [h]
  · simp only [if_neg h]
    split_ifs <;> rfl

/-- Applying one query pair only changes `task_id` when the key is
`task_id`, and then to the pair's value. -/
theorem apply_task_id (sd : TaskSyncData) (kv : String × String) :
    (apply_query_pair sd kv).task_id =
      if kv.1 = "task_id" then some kv.2 else sd.task_id := by
  rcases kv with ⟨k, v⟩
  simp only [apply_query_pair]
  by_cases h : k = "task_id"
  · simp [h]
  · simp only [if_neg h]
    split_ifs <;> rfl

/-- Applying one query pair only changes `work_item` when the key is
`task_name`, and then to the pair's value. -/
theorem apply_work_item (sd : TaskSyncData) (kv : String × String) :
    (apply_query_pair sd kv).work_item =
      if kv.1 = "task_name" then some kv.2 else sd.work_item := by
  rcases kv with ⟨k, v⟩
  simp only [apply_query_pair]
  by_cases h : k = "task_name"
  · simp [h]
  · simp only [if_neg h]
    split_ifs <;> rfl

/-- Applying one query pair only changes `work_item_description` when the key is
`task_description`, and then to the pair's value. -/
theorem apply_work_item_description (sd : TaskSyncData) (kv : String × String) :
    (apply_query_pair sd kv).work_item_description =
      if kv.1 = "task_description" then some kv.2 else sd.work_item_description := by
  rcases kv with ⟨k, v⟩
  simp only [apply_query_pair]
  by_cases h : k = "task_description"
  · simp [h]
  · simp only [if_neg h]
    split_ifs <;> rfl

/-- No query pair ever changes `synced_at`. -/
theorem apply_synced_at (sd : TaskSyncData) (kv : String × String) :
    (apply_query_pair sd kv).synced_at = sd.synced_at := by
  rcases kv with ⟨k, v⟩
  simp only [apply_query_pair]
  split_ifs <;> rfl

/-- Folding the query pairs over any start state leaves a string field at
the last value bound to its key, or at the start state's value when the
key never occurs. -/
theorem foldl_str_field (get : TaskSyncData → String) (key : String)
    (hstep : ∀ sd kv, get (apply_query_pair sd kv) =
      if kv.1 = key then kv.2 else get sd) :
    ∀ (pairs : List (String × String)) (sd : TaskSyncData),
      get (pairs.foldl apply_query_pair sd) =
        (lastValue key pairs).getD (get sd) := by
  intro pairs
  induction pairs with
  | nil => intro sd; rfl
  | cons kv rest ih =>
    intro sd
    rw [List.foldl_cons, ih, hstep]
    show _ = ((lastValue key rest).or
      (if kv.1 = key then some kv.2 else none)).getD (get sd)
    cases hrest : lastValue key rest with
    | some w => simp [Option.or]
    | none => by_cases hk : kv.1 = key <;> simp [Option.or, hk]

/-- Folding the query pairs over any start state leaves an optional field
at `some` of the last value bound to its key, or at the start state's
value when the key never occurs. -/
theorem foldl_opt_field (get : TaskSyncData → Option String) (key : String)
    (hstep : ∀ sd kv, get (apply_query_pair sd kv) =
      if kv.1 = key then some kv.2 else get sd) :
    ∀ (pairs : List (String × String)) (sd : TaskSyncData),
      get (pairs.foldl apply_query_pair sd) =
        (lastValue key pairs).or (get sd) := by
  intro pairs
  induction pairs with
  | nil => intro sd; rfl
  | cons kv rest ih =>
    intro sd
    rw [List.foldl_cons, ih, hstep]
    show _ = ((lastValue key rest).or
      (if kv.1 = key then some kv.2 else none)).or (get sd)
    cases hrest : lastValue key rest with
    | some w => simp [Option.or]
    | none => by_cases hk : kv.1 = key <;> simp [Option.or, hk]

/-- The fold never touches `synced_at`. -/
theorem foldl_synced_at :
    ∀ (pairs : List (String × String)) (sd : TaskSyncData),
      (pairs.foldl apply_query_pair sd).synced_at = sd.synced_at := by
  intro pairs
  induction pairs with
  | nil => intro sd; rfl
  | cons kv rest ih =>
    intro sd
    rw [List.foldl_cons, ih, apply_synced_at]

/-- A key has a last value in the pair list exactly when it occurs among
the keys. -/
theorem lastValue_isSome (k : String) :
    ∀ pairs : List (String × String),
      (lastValue k pairs).isSome = true ↔ k ∈ pairs.map Prod.fst := by
  intro pairs
  induction pairs with
  | nil => simp [lastValue]
  | cons kv rest ih =>
    show ((lastValue k rest).or
      (if kv.1 = k then some kv.2 else none)).isSome = true ↔ _
    cases hrest : lastValue k rest with
    | some w =>
      simp only [hrest] at ih
      simp [Option.or, ← ih]
    | none =>
      simp only [hrest] at ih
      by_cases hk : kv.1 = k
      · simp [Option.or, hk, ← ih]
      · simp [Option.or, hk, ← ih]
        exact fun h => hk h.symm

/-- The parsed `account_id` is the last `account_id` query value, defaulting to
the empty string. -/
theorem parse_account_id (now : Nat) (pairs : List (String × String)) :
    (parse_sync_data now pairs).account_id =
      (lastValue "account_id" pairs).getD "" :=
  foldl_str_field TaskSyncData.account_id "account_id" apply_account_id pairs
    (default_sync_data now)

/-- The parsed `account_name` is the last `account_name` query value, defaulting to
the empty string. -/
theorem parse_account_name (now : Nat) (pairs : List (String × String)) :
    (parse_sync_data now pairs).account_name =
      (lastValue "account_name" pairs).getD "" :=
  foldl_str_field TaskSyncData.account_name "account_name" apply_account_name pairs
    (default_sync_data now)

/-- The parsed `product_id` is the last `product_id` query value, defaulting to
the empty string. -/
theorem parse_product_id (now : Nat) (pairs : List (String × String)) :
    (parse_sync_data now pairs).product_id =
      (lastValue "product_id" pairs).getD "" :=
  foldl_str_field TaskSyncData.product_id "product_id" apply_product_id pairs
    (default_sync_data now)

/-- The parsed `product_name` is the last `product_name` query value, defaulting to
the empty string. -/
theorem parse_product_name (now : Nat) (pairs : List (String × String)) :
    (parse_sync_data now pairs).product_name =
      (lastValue "product_name" pairs).getD "" :=
  foldl_str_field TaskSyncData.product_name "product_name" apply_product_name pairs
    (default_sync_data now)

/-- The parsed `board_id` is the last `board_id` query value, defaulting to
the empty string. -/
theorem parse_board_id (now : Nat) (pairs : List (String × String)) :
    (parse_sync_data now pairs).board_id =
      (lastValue "board_id" pairs).getD "" :=
  foldl_str_field TaskSyncData.board_id "board_id" apply_board_id pairs
    (default_sync_data now)

/-- The parsed `big_bet` is `some` of the last `board_name` query value, and
`none` when the key never occurs. -/
theorem parse_big_bet (now : Nat) (pairs : List (String × String)) :
    (parse_sync_data now pairs).big_bet = lastValue "board_name" pairs := by
  have h := foldl_opt_field TaskSyncData.big_bet "board_name" apply_big_bet pairs
    (default_sync_data now)
  simpa [parse_sync_data, default_sync_data, Option.or_none] using h

/-- The parsed `big_bet_description` is `some` of the last `board_description` query value, and
`none` when the key never occurs. -/
theorem parse_big_bet_description (now : Nat) (pairs : List (String × String)) :
    (parse_sync_data now pairs).big_bet_description = lastValue "board_description" pairs := by
  have h := foldl_opt_field TaskSyncData.big_bet_description "board_description" apply_big_bet_description pairs
    (default_sync_data now)
  simpa [parse_sync_data, default_sync_data, Option.or_none] using h

/-- The parsed `task_id` is `some` of the last `task_id` query value, and
`none` when the key never occurs. -/
theorem parse_task_id (now : Nat) (pairs : List (String × String)) :
    (parse_sync_data now pairs).task_id = lastValue "task_id" pairs := by
  have h := foldl_opt_field TaskSyncData.task_id "task_id" apply_task_id pairs
    (default_sync_data now)
  simpa [parse_sync_data, default_sync_data, Option.or_none] using h

/-- The parsed `work_item` is `some` of the last `task_name` query value, and
`none` when the key never occurs. -/
theorem parse_work_item (now : Nat) (pairs : List (String × String)) :
    (parse_sync_data now pairs).work_item = lastValue "task_name" pairs := by
  have h := foldl_opt_field TaskSyncData.work_item "task_name" apply_work_item pairs
    (default_sync_data now)
  simpa [parse_sync_data, default_sync_data, Option.or_none] using h

/-- The parsed `work_item_description` is `some` of the last `task_description` query value, and
`none` when the key never occurs. -/
theorem parse_work_item_description (now : Nat) (pairs : List (String × String)) :
    (parse_sync_data now pairs).work_item_description = lastValue "task_description" pairs := by
  have h := foldl_opt_field TaskSyncData.work_item_description "task_description" apply_work_item_description pairs
    (default_sync_data now)
  simpa [parse_sync_data, default_sync_data, Option.or_none] using h

/-- The parsed `synced_at` is always the parse-time stamp, never taken
from the request. -/
theorem parse_synced_at (now : Nat) (pairs : List (String × String)) :
    (parse_sync_data now pairs).synced_at = some now :=
  foldl_synced_at pairs (default_sync_data now)

/-- When every polled iteration sees no request, the listener loop spends
its whole fuel and hits the timeout `bail!`, having polled exactly
`fuel` times. -/
theorem sync_listen_aux_timeout (now : Nat) (events : Nat → RecvEvent) :
    ∀ fuel idx,
      (∀ j, j < fuel → events (idx + j) = RecvEvent.noRequest) →
      sync_listen_aux now events fuel idx = SyncOutcome.timeout ∧
        sync_count_aux events fuel idx = fuel := by
  intro fuel
  induction fuel with
  | zero => intro idx _; exact ⟨rfl, rfl⟩
  | succ n ih =>
    intro idx h
    have h0 : events idx = RecvEvent.noRequest := by
      simpa using h 0 (Nat.succ_pos n)
    have hrest : ∀ j, j < n → events (idx + 1 + j) = RecvEvent.noRequest := by
      intro j hj
      rw [show idx + 1 + j = idx + (j + 1) by omega]
      exact h (j + 1) (by omega)
    obtain ⟨h1, h2⟩ := ih (idx + 1) hrest
    refine ⟨?_, ?_⟩
    · simp [sync_listen_aux, h0, h1]
    · simp only [sync_count_aux, h0, h2]
      omega

/-- The listener loop never polls more often than its fuel allows. -/
theorem sync_count_aux_le (events : Nat → RecvEvent) :
    ∀ fuel idx, sync_count_aux events fuel idx ≤ fuel := by
  intro fuel
  induction fuel with
  | zero => intro idx; exact Nat.le_refl 0
  | succ n ih =>
    intro idx
    cases h : events idx with
    | noRequest =>
      have := ih (idx + 1)
      simp only [sync_count_aux, h]
      omega
    | request p b =>
      simp only [sync_count_aux, h]
      omega

/-- If the first `i` polls see no request and poll `i` (within the fuel)
receives a request, the loop's result is decided by that request alone:
an unparseable path aborts with the parse error, a parse success followed
by a failed respond aborts with the respond error, and otherwise the
parsed sync data is returned. -/
theorem sync_listen_aux_first_request (now : Nat) (events : Nat → RecvEvent)
    (parsed : Option (List (String × String))) (b : Bool) :
    ∀ fuel i idx, i < fuel →
      (∀ j, j < i → events (idx + j) = RecvEvent.noRequest) →
      events (idx + i) = RecvEvent.request parsed b →
      sync_listen_aux now events fuel idx =
        match parsed with
        | none => SyncOutcome.parseFailure
        | some pairs =>
          if b then SyncOutcome.success (parse_sync_data now pairs)
          else SyncOutcome.respondFailure := by
  intro fuel
  induction fuel with
  | zero => intro i idx hi; exact absurd hi (Nat.not_lt_zero i)
  | succ n ih =>
    intro i idx hi hbefore hit
    cases i with
    | zero =>
      have h0 : events idx = RecvEvent.request parsed b := by simpa using hit
      cases parsed with
      | none => simp [sync_listen_aux, h0]
      | some pairs => simp [sync_listen_aux, h0]
    | succ k =>
      have h0 : events idx = RecvEvent.noRequest := by
        simpa using hbefore 0 (Nat.succ_pos k)
      have hb : ∀ j, j < k → events (idx + 1 + j) = RecvEvent.noRequest := by
        intro j hj
        rw [show idx + 1 + j = idx + (j + 1) by omega]
        exact hbefore (j + 1) (by omega)
      have hit2 : events (idx + 1 + k) = RecvEvent.request parsed b := by
        rw [show idx + 1 + k = idx + (k + 1) by omega]
        exact hit
      have hrec := ih k (idx + 1) (by omega) hb hit2
      simpa [sync_listen_aux, h0] using hrec

/-- Claim C1: in the pre-search merge, for each of `account_id`,
`product_id`, `board_id`, `task_id`, a value the caller specified
(a non-empty `Option`) is kept, and otherwise the ambient context's
value for that field is copied in (`task_id` included only when the
ambient context carries one, since copying `none` leaves the field
absent); and when the ambient context filters are absent, the caller
filter passes through unchanged. -/
theorem C1_merge_precedence (input : FileSearchToolInput)
    (ctx : SearchFilter) :
    (∃ f, perform_search_filter input (some ctx) = some f ∧
      f.account_id =
        (Option.bind input.filter SearchFilter.account_id).or ctx.account_id ∧
      f.product_id =
        (Option.bind input.filter SearchFilter.product_id).or ctx.product_id ∧
      f.board_id =
        (Option.bind input.filter SearchFilter.board_id).or ctx.board_id ∧
      f.task_id =
        (Option.bind input.filter SearchFilter.task_id).or ctx.task_id) ∧
    perform_search_filter input none = input.filter := by
  refine ⟨?_, rfl⟩
  rcases input with ⟨q, l, f⟩
  cases f with
  | none =>
    refine ⟨_, rfl, ?_, ?_, ?_, ?_⟩ <;>
      simp [perform_search_filter, SearchFilter.emptyFilter, Option.or]
  | some f0 =>
    rcases f0 with ⟨st, ct, tid, aid, pid, bid, tkid⟩
    cases aid <;> cases pid <;> cases bid <;> cases tkid <;>
      refine ⟨_, rfl, ?_, ?_, ?_, ?_⟩ <;>
      simp [perform_search_filter, Option.or]

/-- Claim C9: on the synced-context store, `clear` empties the store,
a second `clear` leaves it empty again, a `get` right after `clear`
returns absent, and a `get` right after `set` returns the stored value. -/
theorem C9_clear_idempotent (s : Option TaskSyncData) (d : TaskSyncData) :
    clear_sync_data s = none ∧
    clear_sync_data (clear_sync_data s) = none ∧
    get_sync_data (clear_sync_data s) = none ∧
    get_sync_data (set_sync_data s d) = some d :=
  ⟨rfl, rfl, rfl, rfl⟩

/-- Claim C10: `run` rejects an input exactly when both the query and the
caller filter's `thread_id` are absent, with the fixed error message, and
otherwise proceeds to the merged search filter. -/
theorem C10_input_validation (input : FileSearchToolInput)
    (sd : Option TaskSyncData) :
    (run_model input sd =
        Except.error "Either 'query' or 'filter.thread_id' must be provided"
      ↔ input.query = none ∧
        Option.bind input.filter SearchFilter.thread_id = none) ∧
    (run_model input sd =
        Except.ok (perform_search_filter input (run_context_filters sd))
      ↔ input.query ≠ none ∨
        Option.bind input.filter SearchFilter.thread_id ≠ none) := by
  unfold run_model
  by_cases hq : input.query = none <;>
    by_cases ht : Option.bind input.filter SearchFilter.thread_id = none <;>
    simp [hq, ht, Option.isNone_iff_eq_none]

/-- Claim C8: a listener run that never receives a request polls exactly
300 times (one `recv_timeout` of one second per iteration) and then
fails with the timeout error: it neither fails earlier nor keeps
waiting past the budget. -/
theorem C8_timeout_after_budget (now : Nat) (events : Nat → RecvEvent)
    (h : ∀ i, i < 300 → events i = RecvEvent.noRequest) :
    sync_task_listen now events = SyncOutcome.timeout ∧
    sync_listen_count events = 300 := by
  have hz : ∀ j, j < 300 → events (0 + j) = RecvEvent.noRequest := by
    intro j hj
    simpa using h j hj
  obtain ⟨h1, h2⟩ := sync_listen_aux_timeout now events 300 0 hz
  exact ⟨h1, h2⟩

/-- Witness for C8 at the stream that never delivers a request. -/
theorem C8_timeout_after_budget_witness :
    sync_task_listen 0 (fun _ => RecvEvent.noRequest) = SyncOutcome.timeout ∧
    sync_listen_count (fun _ => RecvEvent.noRequest) = 300 :=
  C8_timeout_after_budget 0 (fun _ => RecvEvent.noRequest) (fun _ _ => rfl)

/-- Counterexample to claim C2: a listen attempt whose only received
request has an unparseable path and which otherwise receives nothing
ends in the parse-failure abort, not in the timeout the claim requires. -/
theorem C2_parse_failure_counterexample :
    sync_task_listen 0
        (fun i => if i = 0 then RecvEvent.request none true
                  else RecvEvent.noRequest) = SyncOutcome.parseFailure ∧
    sync_task_listen 0
        (fun i => if i = 0 then RecvEvent.request none true
                  else RecvEvent.noRequest) ≠ SyncOutcome.timeout := by
  exact ⟨rfl, by decide⟩

/-- Claim C2 as amended: a received request whose path cannot be parsed
as a valid URL is fatal to the whole wait — the `?` on `Url::parse`
propagates the error out of the listener future, so the listen attempt
returns the parse failure at once instead of waiting out the budget. -/
theorem C2_parse_failure_aborts (now : Nat) (events : Nat → RecvEvent)
    (i : Nat) (b : Bool) (hi : i < 300)
    (hbefore : ∀ j, j < i → events j = RecvEvent.noRequest)
    (hit : events i = RecvEvent.request none b) :
    sync_task_listen now events = SyncOutcome.parseFailure := by
  have hb : ∀ j, j < i → events (0 + j) = RecvEvent.noRequest := by
    intro j hj
    simpa using hbefore j hj
  have hit2 : events (0 + i) = RecvEvent.request none b := by simpa using hit
  simpa [sync_task_listen] using
    sync_listen_aux_first_request now events none b 300 i 0 hi hb hit2

/-- Witness for the amended C2: an unparseable request at the second poll
aborts the wait with the parse failure. -/
theorem C2_parse_failure_aborts_witness :
    sync_task_listen 0
        (fun i => if i = 1 then RecvEvent.request none false
                  else RecvEvent.noRequest) = SyncOutcome.parseFailure :=
  C2_parse_failure_aborts 0
    (fun i => if i = 1 then RecvEvent.request none false
              else RecvEvent.noRequest)
    1 false (by decide)
    (fun j hj => by
      have hj0 : j = 0 := by omega
      subst hj0
      rfl)
    rfl

/-- Counterexample to claim C4: a valid request whose courtesy response
fails to write ends in the respond-failure abort — the captured context
is neither returned from the wait nor published to the store. -/
theorem C4_respond_failure_counterexample :
    sync_task_listen 0
        (fun i => if i = 0 then
            RecvEvent.request (some [("account_id", "A")]) false
          else RecvEvent.noRequest) = SyncOutcome.respondFailure ∧
    sync_task_listen 0
        (fun i => if i = 0 then
            RecvEvent.request (some [("account_id", "A")]) false
          else RecvEvent.noRequest)
      ≠ SyncOutcome.success (parse_sync_data 0 [("account_id", "A")]) ∧
    sync_task_store_update none
      (sync_task_listen 0
        (fun i => if i = 0 then
            RecvEvent.request (some [("account_id", "A")]) false
          else RecvEvent.noRequest)) = none := by
  exact ⟨rfl, by decide, rfl⟩

/-- Claim C4 as amended: when the courtesy HTML response cannot be
written back, the `?` on `req.respond` propagates the error before
`Ok(sync_data)` is returned, so the wait ends in the respond failure and
the store keeps its previous value. -/
theorem C4_respond_failure_aborts (now : Nat) (events : Nat → RecvEvent)
    (i : Nat) (pairs : List (String × String)) (prev : Option TaskSyncData)
    (hi : i < 300)
    (hbefore : ∀ j, j < i → events j = RecvEvent.noRequest)
    (hit : events i = RecvEvent.request (some pairs) false) :
    sync_task_listen now events = SyncOutcome.respondFailure ∧
    sync_task_store_update prev (sync_task_listen now events) = prev := by
  have hb : ∀ j, j < i → events (0 + j) = RecvEvent.noRequest := by
    intro j hj
    simpa using hbefore j hj
  have hit2 : events (0 + i) = RecvEvent.request (some pairs) false := by
    simpa using hit
  have hout : sync_task_listen now events = SyncOutcome.respondFailure := by
    simpa [sync_task_listen] using
      sync_listen_aux_first_request now events (some pairs) false 300 i 0
        hi hb hit2
  exact ⟨hout, by rw [hout]; rfl⟩

/-- Witness for the amended C4: a respond failure at the first poll
aborts the wait and leaves the store untouched. -/
theorem C4_respond_failure_aborts_witness :
    sync_task_listen 3
        (fun i => if i = 0 then
            RecvEvent.request (some [("board_id", "B")]) false
          else RecvEvent.noRequest) = SyncOutcome.respondFailure ∧
    sync_task_store_update none
      (sync_task_listen 3
        (fun i => if i = 0 then
            RecvEvent.request (some [("board_id", "B")]) false
          else RecvEvent.noRequest)) = none :=
  C4_respond_failure_aborts 3
    (fun i => if i = 0 then
        RecvEvent.request (some [("board_id", "B")]) false
      else RecvEvent.noRequest)
    0 [("board_id", "B")] none (by decide)
    (fun j hj => absurd hj (Nat.not_lt_zero j))
    rfl

/-- Divergence witness for claim C3: with ambient sync data for account
`A`, product `P`, board `B` and a caller that gives a query but no
filter, the ambient context filter does carry `content_type = "auto"`,
yet the merge copies only the four ID fields, so the effective filter
sent to the search call has the ambient IDs but `content_type` absent —
not the sentinel `"auto"` the claim requires. -/
theorem C3_auto_content_type_dropped :
    run_context_filters (some { default_sync_data 0 with
        account_id := "A", product_id := "P", board_id := "B" }) =
      some { SearchFilter.emptyFilter with
        content_type := some "auto",
        account_id := some "A", product_id := some "P",
        board_id := some "B" } ∧
    perform_search_filter ⟨some "q", none, none⟩
        (run_context_filters (some { default_sync_data 0 with
          account_id := "A", product_id := "P", board_id := "B" })) =
      some { SearchFilter.emptyFilter with
        account_id := some "A", product_id := some "P",
        board_id := some "B" } :=
  ⟨rfl, rfl⟩

/-- Counterexample to claim C5: a successful sync whose callback carried
no recognized parameters stores empty-string core IDs, and downstream
sends them onward as present-but-empty values — the effective search
filter and `get_context_filter` both carry `account_id = ""` rather than
treating it as unset. -/
theorem C5_empty_id_sent_counterexample :
    (parse_sync_data 0 []).account_id = "" ∧
    perform_search_filter ⟨some "q", none, none⟩
        (run_context_filters (some (parse_sync_data 0 []))) =
      some { SearchFilter.emptyFilter with
        account_id := some "", product_id := some "",
        board_id := some "" } ∧
    get_context_filter (some (parse_sync_data 0 [])) =
      some [("type", "tasks"), ("account_id", ""), ("product_id", ""),
            ("board_id", "")] :=
  ⟨rfl, rfl, rfl⟩

/-- Claim C5 as amended: the core identifier fields default to the empty
string when the callback lacked them, but downstream always includes
`account_id`, `product_id` and `board_id` from the synced context in the
search filter, so an empty string is sent onward verbatim rather than
treated as unset. -/
theorem C5_empty_defaults_passed_through (now : Nat)
    (pairs : List (String × String))
    (ha : lastValue "account_id" pairs = none)
    (hp : lastValue "product_id" pairs = none)
    (hb : lastValue "board_id" pairs = none) :
    (parse_sync_data now pairs).account_id = "" ∧
    (parse_sync_data now pairs).product_id = "" ∧
    (parse_sync_data now pairs).board_id = "" ∧
    run_context_filters (some (parse_sync_data now pairs)) =
      some { search_type := none, content_type := some "auto",
             thread_id := none, account_id := some "",
             product_id := some "", board_id := some "",
             task_id := lastValue "task_id" pairs } := by
  have h1 := parse_account_id now pairs
  have h2 := parse_product_id now pairs
  have h3 := parse_board_id now pairs
  rw [ha] at h1
  rw [hp] at h2
  rw [hb] at h3
  simp only [Option.getD_none] at h1 h2 h3
  refine ⟨h1, h2, h3, ?_⟩
  simp [run_context_filters, h1, h2, h3, parse_task_id]

/-- Witness for the amended C5: the empty callback query yields empty
core IDs that are still included in the context filter. -/
theorem C5_empty_defaults_passed_through_witness :
    (parse_sync_data 0 []).account_id = "" ∧
    (parse_sync_data 0 []).product_id = "" ∧
    (parse_sync_data 0 []).board_id = "" ∧
    run_context_filters (some (parse_sync_data 0 [])) =
      some { search_type := none, content_type := some "auto",
             thread_id := none, account_id := some "",
             product_id := some "", board_id := some "",
             task_id := none } :=
  C5_empty_defaults_passed_through 0 [] rfl rfl rfl

/-- Claim C6: the callback parser maps the recognized keys 1:1 to the
`TaskSyncData` fields with the (percent-decoded) values taken verbatim
(later duplicates overwriting earlier ones), leaves every field
untouched by unrecognized keys — each field below depends only on its
own recognized key — sets `task_id` to present exactly when a `task_id`
pair occurred, and stamps `synced_at` with the parse-time clock rather
than anything in the request. -/
theorem C6_parser_characterization (now : Nat)
    (pairs : List (String × String)) :
    (parse_sync_data now pairs).account_id =
      (lastValue "account_id" pairs).getD "" ∧
    (parse_sync_data now pairs).account_name =
      (lastValue "account_name" pairs).getD "" ∧
    (parse_sync_data now pairs).product_id =
      (lastValue "product_id" pairs).getD "" ∧
    (parse_sync_data now pairs).product_name =
      (lastValue "product_name" pairs).getD "" ∧
    (parse_sync_data now pairs).board_id =
      (lastValue "board_id" pairs).getD "" ∧
    (parse_sync_data now pairs).big_bet = lastValue "board_name" pairs ∧
    (parse_sync_data now pairs).big_bet_description =
      lastValue "board_description" pairs ∧
    (parse_sync_data now pairs).task_id = lastValue "task_id" pairs ∧
    (parse_sync_data now pairs).work_item = lastValue "task_name" pairs ∧
    (parse_sync_data now pairs).work_item_description =
      lastValue "task_description" pairs ∧
    ((parse_sync_data now pairs).task_id.isSome = true ↔
      "task_id" ∈ pairs.map Prod.fst) ∧
    (parse_sync_data now pairs).synced_at = some now := by
  refine ⟨parse_account_id now pairs, parse_account_name now pairs,
    parse_product_id now pairs, parse_product_name now pairs,
    parse_board_id now pairs, parse_big_bet now pairs,
    parse_big_bet_description now pairs, parse_task_id now pairs,
    parse_work_item now pairs, parse_work_item_description now pairs,
    ?_, parse_synced_at now pairs⟩
  rw [parse_task_id]
  exact lastValue_isSome "task_id" pairs

/-- Claim C7: encoding a `TaskSyncData`'s fields as callback query
parameters under the recognized key names and feeding them back through
the parser reproduces the context exactly, except that `synced_at` is
re-stamped with the parse-time clock. -/
theorem C7_encode_parse_roundtrip (now : Nat) (sd : TaskSyncData) :
    parse_sync_data now (encode_sync_data sd) =
      { sd with synced_at := some now } := by
  rcases sd with ⟨a, an, p, pn, b, bb, bbd, t, tn, td, s⟩
  cases bb <;> cases bbd <;> cases t <;> cases tn <;> cases td <;>
    simp [encode_sync_data, parse_sync_data, default_sync_data,
      apply_query_pair, List.foldl_cons, List.foldl_nil]
